import Mathlib

/-!
Verification of the Tavily AI-SDK tool layer (tavily-search / tavily-crawl /
tavily-map / tavily-extract): parameter resolution, request-body construction,
credential fallback and error normalization, embedded shallowly from the
TypeScript source.
-/

set_option autoImplicit false

namespace Tavily

/-- A JSON value, used both for request-payload entries and for response bodies. -/
inductive Json where
  | str : String → Json
  | bool : Bool → Json
  | num : Nat → Json
  | arr : List Json → Json
  | obj : List (String × Json) → Json

/-- Minimal JSON string escaping (backslash and double quote), as in `JSON.stringify`. -/
def escapeString (s : String) : String :=
  s.foldl (fun acc c =>
    if c = '\\' then acc ++ "\\\\"
    else if c = '"' then acc ++ "\\\""
    else acc.push c) ""

mutual

/-- `JSON.stringify` on the `Json` model. -/
def Json.stringify : Json → String
  | .str s => "\"" ++ escapeString s ++ "\""
  | .bool true => "true"
  | .bool false => "false"
  | .num n => toString n
  | .arr xs => "[" ++ Json.stringifyList xs ++ "]"
  | .obj fs => "\x7b" ++ Json.stringifyFields fs ++ "\x7d"

/-- Comma-separated serialization of an array's elements. -/
def Json.stringifyList : List Json → String
  | [] => ""
  | [x] => Json.stringify x
  | x :: xs => Json.stringify x ++ "," ++ Json.stringifyList xs

/-- Comma-separated serialization of an object's fields. -/
def Json.stringifyFields : List (String × Json) → String
  | [] => ""
  | [(k, v)] => "\"" ++ escapeString k ++ "\":" ++ Json.stringify v
  | (k, v) :: fs =>
      "\"" ++ escapeString k ++ "\":" ++ Json.stringify v ++ "," ++ Json.stringifyFields fs

end

/-- A request payload: a JS object as an insertion-ordered association list
(each key is assigned at most once by the builders below). -/
abbrev Payload := List (String × Json)

/-- Key lookup in a payload (first occurrence wins). -/
def lookupKey (k : String) : Payload → Option Json
  | [] => none
  | (k2, v) :: rest => if k2 = k then some v else lookupKey k rest

/-- `if (v present) obj.k = v;` at this point of the object construction,
followed by the remaining entries `rest`. -/
def addOpt (v : Option Json) (k : String) (rest : Payload) : Payload :=
  match v with
  | some j => (k, j) :: rest
  | none => rest

/-- `if (v1 present) obj.k = v1; else if (v2 present) obj.k = v2;` — the
per-call layer, then the configuration layer — followed by `rest`. -/
def addOpt2 (v1 v2 : Option Json) (k : String) (rest : Payload) : Payload :=
  match v1 with
  | some j => (k, j) :: rest
  | none =>
    match v2 with
    | some j => (k, j) :: rest
    | none => rest

theorem lookupKey_cons_ne {k k2 : String} (h : ¬ k2 = k) (v : Json) (rest : Payload) :
    lookupKey k ((k2, v) :: rest) = lookupKey k rest := by
  simp [lookupKey, h]

theorem lookupKey_cons_eq (k : String) (v : Json) (rest : Payload) :
    lookupKey k ((k, v) :: rest) = some v := by
  simp [lookupKey]

theorem lookupKey_addOpt_ne {k k2 : String} (h : ¬ k2 = k) (v : Option Json)
    (rest : Payload) : lookupKey k (addOpt v k2 rest) = lookupKey k rest := by
  cases v <;> simp [addOpt, lookupKey_cons_ne h]

theorem lookupKey_addOpt_eq (k : String) (v : Option Json) (rest : Payload) :
    lookupKey k (addOpt v k rest) = v.orElse (fun _ => lookupKey k rest) := by
  cases v <;> simp [addOpt, lookupKey_cons_eq, Option.orElse]

theorem lookupKey_addOpt2_ne {k k2 : String} (h : ¬ k2 = k) (v1 v2 : Option Json)
    (rest : Payload) : lookupKey k (addOpt2 v1 v2 k2 rest) = lookupKey k rest := by
  cases v1 <;> cases v2 <;> simp [addOpt2, lookupKey_cons_ne h]

theorem lookupKey_addOpt2_eq (k : String) (v1 v2 : Option Json) (rest : Payload) :
    lookupKey k (addOpt2 v1 v2 k rest) =
      (v1.orElse (fun _ => v2)).orElse (fun _ => lookupKey k rest) := by
  cases v1 <;> cases v2 <;> simp [addOpt2, lookupKey_cons_eq, Option.orElse]

/-- JS truthiness filter for an optional string: `undefined` and `""` are
falsy, so `if (s) ...` keeps only a defined, non-empty string. -/
def truthyStr : Option String → Option String
  | none => none
  | some s => if s.isEmpty then none else some s

/-- `if (xs && xs.length > 0) ...`: keep only a defined, non-empty list. -/
def filledList : Option (List String) → Option (List String)
  | none => none
  | some l => if l.isEmpty then none else some l

theorem truthyStr_none : truthyStr none = none := rfl

theorem filledList_none : filledList none = none := rfl

theorem filledList_some (l : List String) :
    filledList (some l) = if l.isEmpty then none else some l := rfl

theorem truthyStr_some (s : String) :
    truthyStr (some s) = if s.isEmpty then none else some s := rfl

/-- A JSON array of strings. -/
def Json.strList (l : List String) : Json := Json.arr (l.map Json.str)

/-- `searchDepth?: "basic" | "advanced"` (also crawl/extract `extractDepth`). -/
inductive SearchDepth where
  | basic
  | advanced
  deriving Repr, DecidableEq

/-- Wire encoding of a depth enum value. -/
def SearchDepth.wire : SearchDepth → String
  | .basic => "basic"
  | .advanced => "advanced"

/-- `topic?: "general" | "news" | "finance"` -/
inductive Topic where
  | general
  | news
  | finance
  deriving Repr, DecidableEq

/-- Wire encoding of a topic enum value. -/
def Topic.wire : Topic → String
  | .general => "general"
  | .news => "news"
  | .finance => "finance"

/-- `timeRange?: "year" | "month" | "week" | "day" | "y" | "m" | "w" | "d"` -/
inductive TimeRange where
  | year
  | month
  | week
  | day
  | y
  | m
  | w
  | d
  deriving Repr, DecidableEq

/-- Wire encoding of a time-range enum value. -/
def TimeRange.wire : TimeRange → String
  | .year => "year"
  | .month => "month"
  | .week => "week"
  | .day => "day"
  | .y => "y"
  | .m => "m"
  | .w => "w"
  | .d => "d"

/-- `includeRawContent?: false | "markdown" | "text"` -/
inductive IncludeRawContent where
  | asFalse
  | markdown
  | text
  deriving Repr, DecidableEq

/-- JS truthiness filter on `includeRawContent`: the literal `false` is falsy,
so `if (includeRawContent) ...` keeps only `"markdown"` / `"text"`. -/
def truthyRaw : Option IncludeRawContent → Option IncludeRawContent
  | none => none
  | some .asFalse => none
  | some r => some r

/-- The JSON value assigned for an `includeRawContent` setting. -/
def IncludeRawContent.wireJson : IncludeRawContent → Json
  | .asFalse => Json.bool false
  | .markdown => Json.str "markdown"
  | .text => Json.str "text"

/-- `format?: "markdown" | "text"` (crawl/extract output format). -/
inductive OutputFormat where
  | markdown
  | text
  deriving Repr, DecidableEq

/-- Wire encoding of an output-format enum value. -/
def OutputFormat.wire : OutputFormat → String
  | .markdown => "markdown"
  | .text => "text"

/-- `TavilySearchOptions`: the construction-time configuration of
`tavilySearch` (src/tools/tavily-search.ts, lines 4-25). A `none` field was
not supplied by the developer, so the destructuring default (if any) applies. -/
structure TavilySearchOptions where
  apiKey : Option String := none
  searchDepth : Option SearchDepth := none
  topic : Option Topic := none
  includeImages : Option Bool := none
  includeAnswer : Option Bool := none
  maxResults : Option Nat := none
  includeImageDescriptions : Option Bool := none
  includeRawContent : Option IncludeRawContent := none
  includeDomains : Option (List String) := none
  excludeDomains : Option (List String) := none
  timeRange : Option TimeRange := none
  country : Option String := none
  chunksPerSource : Option Nat := none
  startDate : Option String := none
  endDate : Option String := none
  autoParameters : Option Bool := none
  maxTokens : Option Nat := none
  includeFavicon : Option Bool := none
  timeout : Option Nat := none
  days : Option Nat := none

/-- The validated per-call input of the search tool (its zod `inputSchema`,
src/tools/tavily-search.ts lines 56-98): `query` required, every other field
optional. -/
structure SearchInput where
  query : String
  includeDomains : Option (List String) := none
  excludeDomains : Option (List String) := none
  searchDepth : Option SearchDepth := none
  includeImages : Option Bool := none
  timeRange : Option TimeRange := none
  topic : Option Topic := none
  includeFavicon : Option Bool := none
  startDate : Option String := none
  endDate : Option String := none

/-- The `requestBody` built by `tavilySearch`'s `execute`
(src/tools/tavily-search.ts, lines 119-164), with the JS object modelled as an
insertion-ordered association list. Mirrors the source line by line: the six
always-present entries (`??` merges for `search_depth` / `topic` /
`include_images`, destructuring defaults basic / general / 5 / false /
false), the agent-controllable `if / else if` ladders (truthiness for the
string dates, `length > 0` for the domain lists, `!== undefined` for
`includeFavicon`), then the developer-only closure parameters
(`includeRawContent` and `country` guarded by truthiness, the rest by
`!== undefined`; `timeout` has destructuring default 60, hence is always
defined and always appended). -/
def searchRequestBody (cfg : TavilySearchOptions) (inp : SearchInput) : Payload :=
  ("query", Json.str inp.query) ::
  ("search_depth", Json.str ((inp.searchDepth.getD (cfg.searchDepth.getD .basic)).wire)) ::
  ("topic", Json.str ((inp.topic.getD (cfg.topic.getD .general)).wire)) ::
  ("max_results", Json.num (cfg.maxResults.getD 5)) ::
  ("include_images", Json.bool (inp.includeImages.getD (cfg.includeImages.getD false))) ::
  ("include_answer", Json.bool (cfg.includeAnswer.getD false)) ::
  addOpt2 ((filledList inp.includeDomains).map Json.strList)
    ((filledList cfg.includeDomains).map Json.strList) "include_domains"
  (addOpt2 ((filledList inp.excludeDomains).map Json.strList)
    ((filledList cfg.excludeDomains).map Json.strList) "exclude_domains"
  (addOpt2 (inp.timeRange.map (fun t => Json.str t.wire))
    (cfg.timeRange.map (fun t => Json.str t.wire)) "time_range"
  (addOpt2 ((truthyStr inp.startDate).map Json.str)
    ((truthyStr cfg.startDate).map Json.str) "start_date"
  (addOpt2 ((truthyStr inp.endDate).map Json.str)
    ((truthyStr cfg.endDate).map Json.str) "end_date"
  (addOpt2 (inp.includeFavicon.map Json.bool) (cfg.includeFavicon.map Json.bool)
    "include_favicon"
  (addOpt (cfg.days.map Json.num) "days"
  (addOpt (cfg.includeImageDescriptions.map Json.bool) "include_image_descriptions"
  (addOpt ((truthyRaw cfg.includeRawContent).map IncludeRawContent.wireJson)
    "include_raw_content"
  (addOpt ((truthyStr cfg.country).map Json.str) "country"
  (addOpt (cfg.chunksPerSource.map Json.num) "chunks_per_source"
  (addOpt (cfg.autoParameters.map Json.bool) "auto_parameters"
  (addOpt (cfg.maxTokens.map Json.num) "max_tokens"
  [("timeout", Json.num (cfg.timeout.getD 60))]))))))))))))

/-- `TavilyCrawlOptions`: construction-time configuration of `tavilyCrawl`
(src/tools/tavily-crawl.ts, lines 4-18). -/
structure TavilyCrawlOptions where
  apiKey : Option String := none
  maxDepth : Option Nat := none
  maxBreadth : Option Nat := none
  limit : Option Nat := none
  extractDepth : Option SearchDepth := none
  format : Option OutputFormat := none
  selectPaths : Option (List String) := none
  selectDomains : Option (List String) := none
  excludePaths : Option (List String) := none
  excludeDomains : Option (List String) := none
  includeImages : Option Bool := none
  includeFavicon : Option Bool := none
  timeout : Option Nat := none

/-- The per-call input of the crawl tool (its zod `inputSchema`,
src/tools/tavily-crawl.ts lines 42-68): `url` required; `maxDepth`,
`extractDepth`, `instructions`, `allowExternal` optional. No other field is
exposed to the agent. -/
structure CrawlInput where
  url : String
  maxDepth : Option Nat := none
  extractDepth : Option SearchDepth := none
  instructions : Option String := none
  allowExternal : Option Bool := none

/-- Schema validation of a crawl call: `maxDepth: z.number().min(1).max(5)`
is the only constraint beyond what the field types already enforce. -/
def validCrawlInput (i : CrawlInput) : Bool :=
  match i.maxDepth with
  | none => true
  | some depth => decide (1 ≤ depth ∧ depth ≤ 5)

/-- The `requestBody` built by `tavilyCrawl`'s `execute`
(src/tools/tavily-crawl.ts, lines 84-110): seven always-present entries
(`max_depth` merged with `??`, the rest from the closure with destructuring
defaults 20 / 50 / basic / markdown / false), the agent-controllable
`instructions` (truthiness) and `allow_external` (`!== undefined`), then the
developer-only closure parameters (`length > 0` for the path/domain lists,
`!== undefined` for `include_favicon`; `timeout` defaults to 150 and is
always appended). -/
def crawlRequestBody (cfg : TavilyCrawlOptions) (inp : CrawlInput) : Payload :=
  ("url", Json.str inp.url) ::
  ("max_depth", Json.num (inp.maxDepth.getD (cfg.maxDepth.getD 1))) ::
  ("max_breadth", Json.num (cfg.maxBreadth.getD 20)) ::
  ("limit", Json.num (cfg.limit.getD 50)) ::
  ("extract_depth", Json.str ((inp.extractDepth.getD (cfg.extractDepth.getD .basic)).wire)) ::
  ("format", Json.str ((cfg.format.getD .markdown).wire)) ::
  ("include_images", Json.bool (cfg.includeImages.getD false)) ::
  addOpt ((truthyStr inp.instructions).map Json.str) "instructions"
  (addOpt (inp.allowExternal.map Json.bool) "allow_external"
  (addOpt ((filledList cfg.selectPaths).map Json.strList) "select_paths"
  (addOpt ((filledList cfg.selectDomains).map Json.strList) "select_domains"
  (addOpt ((filledList cfg.excludePaths).map Json.strList) "exclude_paths"
  (addOpt ((filledList cfg.excludeDomains).map Json.strList) "exclude_domains"
  (addOpt (cfg.includeFavicon.map Json.bool) "include_favicon"
  [("timeout", Json.num (cfg.timeout.getD 150))]))))))

/-- `TavilyMapOptions`: construction-time configuration of `tavilyMap`
(src/tools/tavily-map.ts, lines 4-16). -/
structure TavilyMapOptions where
  apiKey : Option String := none
  maxDepth : Option Nat := none
  maxBreadth : Option Nat := none
  limit : Option Nat := none
  selectPaths : Option (List String) := none
  selectDomains : Option (List String) := none
  excludePaths : Option (List String) := none
  excludeDomains : Option (List String) := none
  allowExternal : Option Bool := none
  instructions : Option String := none
  timeout : Option Nat := none

/-- The per-call input of the map tool (its zod `inputSchema`,
src/tools/tavily-map.ts lines 38-60): `url` required; `maxDepth`,
`instructions`, `allowExternal` optional. -/
structure MapInput where
  url : String
  maxDepth : Option Nat := none
  instructions : Option String := none
  allowExternal : Option Bool := none

/-- Schema validation of a map call: `maxDepth: z.number().min(1).max(5)`. -/
def validMapInput (i : MapInput) : Bool :=
  match i.maxDepth with
  | none => true
  | some depth => decide (1 ≤ depth ∧ depth ≤ 5)

/-- The `requestBody` built by `tavilyMap`'s `execute`
(src/tools/tavily-map.ts, lines 75-100): four always-present entries, the
agent-controllable `instructions` (truthiness, with configuration fallback)
and `allow_external` (`!== undefined`, with configuration fallback), then the
developer-only path/domain lists (`length > 0`) and `timeout` (default 150,
always appended). -/
def mapRequestBody (cfg : TavilyMapOptions) (inp : MapInput) : Payload :=
  ("url", Json.str inp.url) ::
  ("max_depth", Json.num (inp.maxDepth.getD (cfg.maxDepth.getD 1))) ::
  ("max_breadth", Json.num (cfg.maxBreadth.getD 20)) ::
  ("limit", Json.num (cfg.limit.getD 50)) ::
  addOpt2 ((truthyStr inp.instructions).map Json.str)
    ((truthyStr cfg.instructions).map Json.str) "instructions"
  (addOpt2 (inp.allowExternal.map Json.bool) (cfg.allowExternal.map Json.bool)
    "allow_external"
  (addOpt ((filledList cfg.selectPaths).map Json.strList) "select_paths"
  (addOpt ((filledList cfg.selectDomains).map Json.strList) "select_domains"
  (addOpt ((filledList cfg.excludePaths).map Json.strList) "exclude_paths"
  (addOpt ((filledList cfg.excludeDomains).map Json.strList) "exclude_domains"
  [("timeout", Json.num (cfg.timeout.getD 150))])))))

/-- `TavilyExtractOptions`: construction-time configuration of the fetch-based
`tavilyExtract` variant (src/unnamed/part_003, lines 4-11). -/
structure TavilyExtractOptions where
  apiKey : Option String := none
  includeImages : Option Bool := none
  includeFavicon : Option Bool := none
  extractDepth : Option SearchDepth := none
  format : Option OutputFormat := none
  timeout : Option Nat := none

/-- The per-call input of the extract tool (zod `inputSchema`,
src/unnamed/part_003 lines 28-38): `urls` required, `extractDepth` optional. -/
structure ExtractInput where
  urls : List String
  extractDepth : Option SearchDepth := none

/-- The `requestBody` built by the fetch-based `tavilyExtract`'s `execute`
(src/unnamed/part_003, lines 51-61): four always-present entries, then
`include_favicon` (`!== undefined`) and `timeout` (default 30, always
appended). -/
def extractRequestBody (cfg : TavilyExtractOptions) (inp : ExtractInput) : Payload :=
  ("urls", Json.strList inp.urls) ::
  ("include_images", Json.bool (cfg.includeImages.getD false)) ::
  ("extract_depth", Json.str ((inp.extractDepth.getD (cfg.extractDepth.getD .basic)).wire)) ::
  ("format", Json.str ((cfg.format.getD .markdown).wire)) ::
  addOpt (cfg.includeFavicon.map Json.bool) "include_favicon"
  [("timeout", Json.num (cfg.timeout.getD 30))]

/-- An HTTP response as seen by the tool: numeric status, status text, and the
result of `response.json()` (`.error m` means the body is not valid JSON, so
parsing rejects with an `Error` whose message is `m`). -/
structure HttpResponse where
  status : Nat
  statusText : String
  body : Except String Json

/-- `response.ok`: the status is in the 2xx range. -/
def HttpResponse.ok (r : HttpResponse) : Bool :=
  decide (200 ≤ r.status ∧ r.status ≤ 299)

/-- The outcome of `fetch`: either the promise rejects with an `Error`
carrying message `m` (network/transport failure), or a response arrives. -/
inductive FetchOutcome where
  | fail : String → FetchOutcome
  | resp : HttpResponse → FetchOutcome

/-- One `execute` invocation's observable behaviour: the request body sent
over HTTP (`none` when the invocation failed before issuing any request) and
the value returned to the caller or the thrown error's message. -/
structure ExecTrace where
  requestSent : Option Payload
  result : Except String Json

/-- `apiKey || process.env.TAVILY_API_KEY` — JS `||`, under which an empty
string is falsy and falls through to the environment variable. -/
def resolveApiKey (apiKey env : Option String) : Option String :=
  match truthyStr apiKey with
  | some k => some k
  | none => env

/-- The message of the error thrown when no API key is available
(identical in all four tools). -/
def apiKeyErrorMsg : String :=
  "Tavily API key is required. Set it via options or TAVILY_API_KEY environment variable."

/-- `const errorData = await response.json().catch(() => ({}));` — the parsed
error body, degrading to the empty object when the body is not JSON. -/
def errorDataOf (r : HttpResponse) : Json :=
  match r.body with
  | .ok j => j
  | .error _ => Json.obj []

/-- The message of the `Error` thrown for a non-ok response:
`Tavily API error: ${status} ${statusText}. ${JSON.stringify(errorData)}`. -/
def apiErrorMessage (r : HttpResponse) : String :=
  "Tavily API error: " ++ toString r.status ++ " " ++ r.statusText ++ ". "
    ++ (errorDataOf r).stringify

/-- The `try { fetch ... } catch` body shared verbatim by all fetch-based
tools: a rejected `fetch`, a non-ok response, or a 2xx body that fails to
parse all throw an `Error`, which the `catch` rewraps as
`Failed to <verb> with Tavily: ${error.message}`; a 2xx response with a JSON
body is returned as-is. -/
def fetchAndNormalize (verb : String) (world : FetchOutcome) : Except String Json :=
  match world with
  | .fail m => .error ("Failed to " ++ verb ++ " with Tavily: " ++ m)
  | .resp r =>
    if r.ok then
      match r.body with
      | .ok j => .ok j
      | .error m => .error ("Failed to " ++ verb ++ " with Tavily: " ++ m)
    else
      .error ("Failed to " ++ verb ++ " with Tavily: " ++ apiErrorMessage r)

/-- The shared `execute` skeleton: resolve the credential (`apiKey || env`),
throw `apiKeyErrorMsg` before any HTTP request when it is falsy, otherwise
send the built request body and normalize the outcome. -/
def runTool (verb : String) (apiKey env : Option String) (body : Payload)
    (world : FetchOutcome) : ExecTrace :=
  match truthyStr (resolveApiKey apiKey env) with
  | none => ⟨none, .error apiKeyErrorMsg⟩
  | some _ => ⟨some body, fetchAndNormalize verb world⟩

/-- `tavilySearch(cfg)`'s `execute` on validated input `inp`, in an
environment where `process.env.TAVILY_API_KEY` is `env` and the network
behaves as `world`. -/
def searchExecute (cfg : TavilySearchOptions) (env : Option String)
    (inp : SearchInput) (world : FetchOutcome) : ExecTrace :=
  runTool "search" cfg.apiKey env (searchRequestBody cfg inp) world

/-- `tavilyCrawl(cfg)`'s `execute` on validated input. -/
def crawlExecute (cfg : TavilyCrawlOptions) (env : Option String)
    (inp : CrawlInput) (world : FetchOutcome) : ExecTrace :=
  runTool "crawl" cfg.apiKey env (crawlRequestBody cfg inp) world

/-- `tavilyMap(cfg)`'s `execute` on validated input. -/
def mapExecute (cfg : TavilyMapOptions) (env : Option String)
    (inp : MapInput) (world : FetchOutcome) : ExecTrace :=
  runTool "map" cfg.apiKey env (mapRequestBody cfg inp) world

/-- The fetch-based `tavilyExtract`'s `execute` on validated input. -/
def extractExecute (cfg : TavilyExtractOptions) (env : Option String)
    (inp : ExtractInput) (world : FetchOutcome) : ExecTrace :=
  runTool "extract" cfg.apiKey env (extractRequestBody cfg inp) world

/-- A crawl tool invocation as performed by the agent framework: the declared
zod `inputSchema` is checked first, and `execute` runs only when validation
succeeds (`none`: the call was rejected at validation, no payload was built,
nothing was executed). -/
def crawlInvoke (cfg : TavilyCrawlOptions) (env : Option String)
    (inp : CrawlInput) (world : FetchOutcome) : Option ExecTrace :=
  if validCrawlInput inp then some (crawlExecute cfg env inp world) else none

/-- A map tool invocation, validation first (see `crawlInvoke`). -/
def mapInvoke (cfg : TavilyMapOptions) (env : Option String)
    (inp : MapInput) (world : FetchOutcome) : Option ExecTrace :=
  if validMapInput inp then some (mapExecute cfg env inp world) else none

/-- Following the spec's words (§4.1 / §8 "Precedence"), not the source: the
layered resolution rule — the per-call value when defined, else the
construction-time value when set, else the hardcoded default (which may be
"no value"). Claims compare payload entries against this resolver. -/
def specResolve {α : Type} (vCall vCfg dflt : Option α) : Option α :=
  match vCall with
  | some v => some v
  | none =>
    match vCfg with
    | some c => some c
    | none => dflt

/-- C9: every request payload built by the search tool contains the keys
`query`, `search_depth`, `topic`, `max_results`, `include_images`,
`include_answer` and `timeout`, for every configuration and every valid call
input; and when neither the developer nor the agent set them, the hardcoded
defaults `"basic"` / `"general"` / 5 / false / false / 60 fill them, so the
remote API's server-side defaults for these fields never apply. -/
theorem search_payload_constant_keys :
    (∀ (cfg : TavilySearchOptions) (inp : SearchInput),
      (lookupKey "query" (searchRequestBody cfg inp)).isSome = true ∧
      (lookupKey "search_depth" (searchRequestBody cfg inp)).isSome = true ∧
      (lookupKey "topic" (searchRequestBody cfg inp)).isSome = true ∧
      (lookupKey "max_results" (searchRequestBody cfg inp)).isSome = true ∧
      (lookupKey "include_images" (searchRequestBody cfg inp)).isSome = true ∧
      (lookupKey "include_answer" (searchRequestBody cfg inp)).isSome = true ∧
      (lookupKey "timeout" (searchRequestBody cfg inp)).isSome = true) ∧
    (∀ q : String,
      lookupKey "search_depth" (searchRequestBody {} { query := q }) =
        some (Json.str "basic") ∧
      lookupKey "topic" (searchRequestBody {} { query := q }) =
        some (Json.str "general") ∧
      lookupKey "max_results" (searchRequestBody {} { query := q }) =
        some (Json.num 5) ∧
      lookupKey "include_images" (searchRequestBody {} { query := q }) =
        some (Json.bool false) ∧
      lookupKey "include_answer" (searchRequestBody {} { query := q }) =
        some (Json.bool false) ∧
      lookupKey "timeout" (searchRequestBody {} { query := q }) =
        some (Json.num 60)) := by
  constructor
  · intro cfg inp
    refine ⟨?_, ?_, ?_, ?_, ?_, ?_, ?_⟩ <;>
      simp [searchRequestBody, lookupKey_cons_ne, lookupKey_cons_eq,
        lookupKey_addOpt_ne, lookupKey_addOpt2_ne, lookupKey]
  · intro q
    exact ⟨rfl, rfl, rfl, rfl, rfl, rfl⟩

/-- C1 as literally stated is false on the code: with construction-time
`startDate = "2024-01-01"` and a per-call `startDate = ""` — a defined
per-call value — the payload's `start_date` is the configuration value
`"2024-01-01"`, not the per-call value `""` that the claim's layered rule
resolves to. -/
theorem search_precedence_startDate_cex :
    lookupKey "start_date"
        (searchRequestBody { startDate := some "2024-01-01" }
          { query := "q", startDate := some "" }) =
      some (Json.str "2024-01-01") ∧
    specResolve (some "") (some "2024-01-01") (none : Option String) = some "" ∧
    ("2024-01-01" : String) ≠ "" := by
  exact ⟨rfl, rfl, by decide⟩

/-- C1 (amended): for every agent-overridable field of the search tool, the
payload entry equals the layered resolution — the per-call value when the
call supplies one, else the construction-time value when set, else the
hardcoded default, else absent — except that for the string-valued
`startDate` / `endDate` a value counts as supplied at a layer only when it is
non-empty (an empty string at either layer is treated as absent). -/
theorem search_overridable_precedence (cfg : TavilySearchOptions) (inp : SearchInput) :
    lookupKey "search_depth" (searchRequestBody cfg inp) =
      (specResolve inp.searchDepth cfg.searchDepth (some SearchDepth.basic)).map
        (fun v => Json.str v.wire) ∧
    lookupKey "topic" (searchRequestBody cfg inp) =
      (specResolve inp.topic cfg.topic (some Topic.general)).map
        (fun v => Json.str v.wire) ∧
    lookupKey "include_images" (searchRequestBody cfg inp) =
      (specResolve inp.includeImages cfg.includeImages (some false)).map Json.bool ∧
    lookupKey "time_range" (searchRequestBody cfg inp) =
      (specResolve inp.timeRange cfg.timeRange none).map (fun v => Json.str v.wire) ∧
    lookupKey "start_date" (searchRequestBody cfg inp) =
      (specResolve (truthyStr inp.startDate) (truthyStr cfg.startDate) none).map
        Json.str ∧
    lookupKey "end_date" (searchRequestBody cfg inp) =
      (specResolve (truthyStr inp.endDate) (truthyStr cfg.endDate) none).map
        Json.str ∧
    lookupKey "include_favicon" (searchRequestBody cfg inp) =
      (specResolve inp.includeFavicon cfg.includeFavicon none).map Json.bool := by
  obtain ⟨q, iInc, iExc, iSD, iImg, iTR, iTop, iFav, iSt, iEn⟩ := inp
  obtain ⟨aK, sd, tp, im, ia, mr, iid, irc, incD, excD, tr, co, cps, st, en, ap, mt, fav, tmo, dys⟩ := cfg
  refine ⟨?_, ?_, ?_, ?_, ?_, ?_, ?_⟩
  · cases iSD <;> cases sd <;>
      simp [searchRequestBody, lookupKey_cons_ne, lookupKey_cons_eq, lookupKey_addOpt_ne,
        lookupKey_addOpt2_ne, lookupKey, specResolve]
  · cases iTop <;> cases tp <;>
      simp [searchRequestBody, lookupKey_cons_ne, lookupKey_cons_eq, lookupKey_addOpt_ne,
        lookupKey_addOpt2_ne, lookupKey, specResolve]
  · cases iImg <;> cases im <;>
      simp [searchRequestBody, lookupKey_cons_ne, lookupKey_cons_eq, lookupKey_addOpt_ne,
        lookupKey_addOpt2_ne, lookupKey, specResolve]
  · cases iTR <;> cases tr <;>
      simp [searchRequestBody, lookupKey_cons_ne, lookupKey_cons_eq, lookupKey_addOpt_ne,
        lookupKey_addOpt2_ne, lookupKey_addOpt2_eq, lookupKey, specResolve, Option.orElse]
  · cases h1 : truthyStr iSt <;> cases h2 : truthyStr st <;>
      simp [searchRequestBody, lookupKey_cons_ne, lookupKey_cons_eq, lookupKey_addOpt_ne,
        lookupKey_addOpt2_ne, lookupKey_addOpt2_eq, lookupKey, specResolve, h1, h2,
        Option.orElse]
  · cases h1 : truthyStr iEn <;> cases h2 : truthyStr en <;>
      simp [searchRequestBody, lookupKey_cons_ne, lookupKey_cons_eq, lookupKey_addOpt_ne,
        lookupKey_addOpt2_ne, lookupKey_addOpt2_eq, lookupKey, specResolve, h1, h2,
        Option.orElse]
  · cases iFav <;> cases fav <;>
      simp [searchRequestBody, lookupKey_cons_ne, lookupKey_cons_eq, lookupKey_addOpt_ne,
        lookupKey_addOpt2_ne, lookupKey_addOpt2_eq, lookupKey, specResolve, Option.orElse]

/-- C2 as literally stated is false on the code: construction-time
`includeRawContent: false` (and likewise `country: ""`) is an explicitly set
configuration field that no call input overrides, yet the payload contains no
`include_raw_content` (resp. `country`) key, because the source guards these
two fields with JS truthiness rather than `!== undefined`. -/
theorem search_config_falsy_cex :
    lookupKey "include_raw_content"
      (searchRequestBody { includeRawContent := some IncludeRawContent.asFalse }
        { query := "q" }) = none ∧
    lookupKey "country"
      (searchRequestBody { country := some "" } { query := "q" }) = none := by
  exact ⟨rfl, rfl⟩

/-- C2 (amended): every explicitly set construction-time field of the search
tool that the call input does not override appears in the payload under its
wire name with the configured value — except that `includeRawContent: false`,
`country: ""`, an empty string `startDate`/`endDate`, and empty
`includeDomains`/`excludeDomains` lists are treated as unset and omitted
(the source guards them with truthiness / `length > 0`). -/
theorem search_config_values (cfg : TavilySearchOptions) (inp : SearchInput) :
    (∀ n, cfg.days = some n →
      lookupKey "days" (searchRequestBody cfg inp) = some (Json.num n)) ∧
    (∀ b, cfg.includeImageDescriptions = some b →
      lookupKey "include_image_descriptions" (searchRequestBody cfg inp) =
        some (Json.bool b)) ∧
    (∀ r, cfg.includeRawContent = some r → r ≠ IncludeRawContent.asFalse →
      lookupKey "include_raw_content" (searchRequestBody cfg inp) =
        some r.wireJson) ∧
    (cfg.includeRawContent = some IncludeRawContent.asFalse →
      lookupKey "include_raw_content" (searchRequestBody cfg inp) = none) ∧
    (∀ s, cfg.country = some s → s.isEmpty = false →
      lookupKey "country" (searchRequestBody cfg inp) = some (Json.str s)) ∧
    (cfg.country = some "" →
      lookupKey "country" (searchRequestBody cfg inp) = none) ∧
    (∀ n, cfg.chunksPerSource = some n →
      lookupKey "chunks_per_source" (searchRequestBody cfg inp) = some (Json.num n)) ∧
    (∀ b, cfg.autoParameters = some b →
      lookupKey "auto_parameters" (searchRequestBody cfg inp) = some (Json.bool b)) ∧
    (∀ n, cfg.maxTokens = some n →
      lookupKey "max_tokens" (searchRequestBody cfg inp) = some (Json.num n)) ∧
    (∀ n, cfg.timeout = some n →
      lookupKey "timeout" (searchRequestBody cfg inp) = some (Json.num n)) ∧
    (∀ d, inp.searchDepth = none → cfg.searchDepth = some d →
      lookupKey "search_depth" (searchRequestBody cfg inp) = some (Json.str d.wire)) ∧
    (∀ t, inp.topic = none → cfg.topic = some t →
      lookupKey "topic" (searchRequestBody cfg inp) = some (Json.str t.wire)) ∧
    (∀ b, inp.includeImages = none → cfg.includeImages = some b →
      lookupKey "include_images" (searchRequestBody cfg inp) = some (Json.bool b)) ∧
    (∀ b, cfg.includeAnswer = some b →
      lookupKey "include_answer" (searchRequestBody cfg inp) = some (Json.bool b)) ∧
    (∀ n, cfg.maxResults = some n →
      lookupKey "max_results" (searchRequestBody cfg inp) = some (Json.num n)) ∧
    (∀ l, filledList inp.includeDomains = none → cfg.includeDomains = some l →
      l.isEmpty = false →
      lookupKey "include_domains" (searchRequestBody cfg inp) = some (Json.strList l)) ∧
    (∀ l, filledList inp.excludeDomains = none → cfg.excludeDomains = some l →
      l.isEmpty = false →
      lookupKey "exclude_domains" (searchRequestBody cfg inp) = some (Json.strList l)) ∧
    (∀ t, inp.timeRange = none → cfg.timeRange = some t →
      lookupKey "time_range" (searchRequestBody cfg inp) = some (Json.str t.wire)) ∧
    (∀ s, truthyStr inp.startDate = none → cfg.startDate = some s → s.isEmpty = false →
      lookupKey "start_date" (searchRequestBody cfg inp) = some (Json.str s)) ∧
    (∀ s, truthyStr inp.endDate = none → cfg.endDate = some s → s.isEmpty = false →
      lookupKey "end_date" (searchRequestBody cfg inp) = some (Json.str s)) ∧
    (∀ b, inp.includeFavicon = none → cfg.includeFavicon = some b →
      lookupKey "include_favicon" (searchRequestBody cfg inp) = some (Json.bool b)) := by
  refine ⟨fun n h => ?_, fun b h => ?_, fun r h hne => ?_, fun h => ?_,
    fun s h hs => ?_, fun h => ?_, fun n h => ?_, fun b h => ?_, fun n h => ?_,
    fun n h => ?_, fun d h1 h2 => ?_, fun t h1 h2 => ?_, fun b h1 h2 => ?_,
    fun b h => ?_, fun n h => ?_, fun l h1 h2 h3 => ?_, fun l h1 h2 h3 => ?_,
    fun t h1 h2 => ?_, fun s h1 h2 h3 => ?_, fun s h1 h2 h3 => ?_,
    fun b h1 h2 => ?_⟩
  · simp [searchRequestBody, lookupKey_cons_ne, lookupKey_cons_eq, lookupKey_addOpt_ne,
      lookupKey_addOpt2_ne, lookupKey_addOpt_eq, lookupKey_addOpt2_eq, lookupKey, Option.orElse, h]
  · simp [searchRequestBody, lookupKey_cons_ne, lookupKey_cons_eq, lookupKey_addOpt_ne,
      lookupKey_addOpt2_ne, lookupKey_addOpt_eq, lookupKey_addOpt2_eq, lookupKey, Option.orElse, h]
  · cases r with
    | asFalse => exact absurd rfl hne
    | markdown =>
      simp [searchRequestBody, lookupKey_cons_ne, lookupKey_cons_eq, lookupKey_addOpt_ne,
        lookupKey_addOpt2_ne, lookupKey_addOpt_eq, lookupKey_addOpt2_eq, lookupKey, Option.orElse, truthyRaw, h, IncludeRawContent.wireJson]
    | text =>
      simp [searchRequestBody, lookupKey_cons_ne, lookupKey_cons_eq, lookupKey_addOpt_ne,
        lookupKey_addOpt2_ne, lookupKey_addOpt_eq, lookupKey_addOpt2_eq, lookupKey, Option.orElse, truthyRaw, h, IncludeRawContent.wireJson]
  · simp [searchRequestBody, lookupKey_cons_ne, lookupKey_cons_eq, lookupKey_addOpt_ne,
      lookupKey_addOpt2_ne, lookupKey_addOpt_eq, lookupKey_addOpt2_eq, lookupKey, Option.orElse, truthyRaw, h]
  · simp [searchRequestBody, lookupKey_cons_ne, lookupKey_cons_eq, lookupKey_addOpt_ne,
      lookupKey_addOpt2_ne, lookupKey_addOpt_eq, lookupKey_addOpt2_eq, lookupKey, Option.orElse, truthyStr, h, hs]
  · simp [searchRequestBody, lookupKey_cons_ne, lookupKey_cons_eq, lookupKey_addOpt_ne,
      lookupKey_addOpt2_ne, lookupKey_addOpt_eq, lookupKey_addOpt2_eq, lookupKey, Option.orElse, truthyStr, h,
      show ("" : String).isEmpty = true from rfl]
  · simp [searchRequestBody, lookupKey_cons_ne, lookupKey_cons_eq, lookupKey_addOpt_ne,
      lookupKey_addOpt2_ne, lookupKey_addOpt_eq, lookupKey_addOpt2_eq, lookupKey, Option.orElse, h]
  · simp [searchRequestBody, lookupKey_cons_ne, lookupKey_cons_eq, lookupKey_addOpt_ne,
      lookupKey_addOpt2_ne, lookupKey_addOpt_eq, lookupKey_addOpt2_eq, lookupKey, Option.orElse, h]
  · simp [searchRequestBody, lookupKey_cons_ne, lookupKey_cons_eq, lookupKey_addOpt_ne,
      lookupKey_addOpt2_ne, lookupKey_addOpt_eq, lookupKey_addOpt2_eq, lookupKey, Option.orElse, h]
  · simp [searchRequestBody, lookupKey_cons_ne, lookupKey_cons_eq, lookupKey_addOpt_ne,
      lookupKey_addOpt2_ne, lookupKey, h]
  · simp [searchRequestBody, lookupKey_cons_ne, lookupKey_cons_eq, lookupKey_addOpt_ne,
      lookupKey_addOpt2_ne, lookupKey, h1, h2]
  · simp [searchRequestBody, lookupKey_cons_ne, lookupKey_cons_eq, lookupKey_addOpt_ne,
      lookupKey_addOpt2_ne, lookupKey, h1, h2]
  · simp [searchRequestBody, lookupKey_cons_ne, lookupKey_cons_eq, lookupKey_addOpt_ne,
      lookupKey_addOpt2_ne, lookupKey, h1, h2]
  · simp [searchRequestBody, lookupKey_cons_ne, lookupKey_cons_eq, lookupKey_addOpt_ne,
      lookupKey_addOpt2_ne, lookupKey, h]
  · simp [searchRequestBody, lookupKey_cons_ne, lookupKey_cons_eq, lookupKey_addOpt_ne,
      lookupKey_addOpt2_ne, lookupKey, h]
  · simp [searchRequestBody, lookupKey_cons_ne, lookupKey_cons_eq, lookupKey_addOpt_ne,
      lookupKey_addOpt2_ne, lookupKey_addOpt_eq, lookupKey_addOpt2_eq, lookupKey, Option.orElse, filledList_some, h1, h2, h3]
  · simp [searchRequestBody, lookupKey_cons_ne, lookupKey_cons_eq, lookupKey_addOpt_ne,
      lookupKey_addOpt2_ne, lookupKey_addOpt_eq, lookupKey_addOpt2_eq, lookupKey, Option.orElse, filledList_some, h1, h2, h3]
  · simp [searchRequestBody, lookupKey_cons_ne, lookupKey_cons_eq, lookupKey_addOpt_ne,
      lookupKey_addOpt2_ne, lookupKey_addOpt_eq, lookupKey_addOpt2_eq, lookupKey, Option.orElse, h1, h2]
  · simp [searchRequestBody, lookupKey_cons_ne, lookupKey_cons_eq, lookupKey_addOpt_ne,
      lookupKey_addOpt2_ne, lookupKey_addOpt_eq, lookupKey_addOpt2_eq, lookupKey, Option.orElse, truthyStr_some, h1, h2, h3]
  · simp [searchRequestBody, lookupKey_cons_ne, lookupKey_cons_eq, lookupKey_addOpt_ne,
      lookupKey_addOpt2_ne, lookupKey_addOpt_eq, lookupKey_addOpt2_eq, lookupKey, Option.orElse, truthyStr_some, h1, h2, h3]
  · simp [searchRequestBody, lookupKey_cons_ne, lookupKey_cons_eq, lookupKey_addOpt_ne,
      lookupKey_addOpt2_ne, lookupKey_addOpt_eq, lookupKey_addOpt2_eq, lookupKey, Option.orElse, h1, h2]

/-- C2 witness: the amended statement applied at concrete configurations —
one with every field set to a truthy value and an untouched call input, and
one with the falsy `includeRawContent: false` / `country: ""` settings. -/
theorem search_config_values_witness :
    lookupKey "days" (searchRequestBody
      { apiKey := some "k", searchDepth := some .advanced, topic := some .news,
        includeImages := some true, includeAnswer := some true, maxResults := some 7,
        includeImageDescriptions := some true, includeRawContent := some .markdown,
        includeDomains := some ["a.com"], excludeDomains := some ["b.com"],
        timeRange := some .week, country := some "us", chunksPerSource := some 2,
        startDate := some "2024-01-01", endDate := some "2024-02-02",
        autoParameters := some false, maxTokens := some 100,
        includeFavicon := some true, timeout := some 90, days := some 3 }
      { query := "q" }) = some (Json.num 3) ∧
    lookupKey "include_raw_content" (searchRequestBody
      { includeRawContent := some .markdown } { query := "q" }) =
      some (Json.str "markdown") ∧
    lookupKey "country" (searchRequestBody
      { country := some "us" } { query := "q" }) = some (Json.str "us") ∧
    lookupKey "include_raw_content" (searchRequestBody
      { includeRawContent := some .asFalse, country := some "" }
      { query := "q" }) = none ∧
    lookupKey "country" (searchRequestBody
      { includeRawContent := some .asFalse, country := some "" }
      { query := "q" }) = none ∧
    lookupKey "search_depth" (searchRequestBody
      { searchDepth := some .advanced } { query := "q" }) =
      some (Json.str "advanced") ∧
    lookupKey "include_domains" (searchRequestBody
      { includeDomains := some ["a.com"] } { query := "q" }) =
      some (Json.strList ["a.com"]) ∧
    lookupKey "start_date" (searchRequestBody
      { startDate := some "2024-01-01" } { query := "q" }) =
      some (Json.str "2024-01-01") := by
  refine ⟨(search_config_values _ _).1 3 rfl, ?_, ?_, ?_, ?_, ?_, ?_, ?_⟩
  · exact (search_config_values { includeRawContent := some .markdown }
      { query := "q" }).2.2.1 .markdown rfl (by decide)
  · exact (search_config_values { country := some "us" }
      { query := "q" }).2.2.2.2.1 "us" rfl (by decide)
  · exact (search_config_values { includeRawContent := some .asFalse, country := some "" }
      { query := "q" }).2.2.2.1 rfl
  · exact (search_config_values { includeRawContent := some .asFalse, country := some "" }
      { query := "q" }).2.2.2.2.2.1 rfl
  · exact (search_config_values { searchDepth := some .advanced }
      { query := "q" }).2.2.2.2.2.2.2.2.2.2.1 .advanced rfl rfl
  · exact (search_config_values { includeDomains := some ["a.com"] }
      { query := "q" }).2.2.2.2.2.2.2.2.2.2.2.2.2.2.2.1 ["a.com"] rfl rfl (by decide)
  · exact (search_config_values { startDate := some "2024-01-01" }
      { query := "q" }).2.2.2.2.2.2.2.2.2.2.2.2.2.2.2.2.2.2.1 "2024-01-01" rfl rfl
      (by decide)

/-- Lookup characterizations of the crawl payload's developer-only fields:
each is a function of the configuration alone. -/
theorem crawl_lookup_max_breadth (cfg : TavilyCrawlOptions) (inp : CrawlInput) :
    lookupKey "max_breadth" (crawlRequestBody cfg inp) =
      some (Json.num (cfg.maxBreadth.getD 20)) := by
  simp [crawlRequestBody, lookupKey_cons_ne, lookupKey_cons_eq, lookupKey_addOpt_ne,
    lookupKey_addOpt2_ne, lookupKey]

theorem crawl_lookup_limit (cfg : TavilyCrawlOptions) (inp : CrawlInput) :
    lookupKey "limit" (crawlRequestBody cfg inp) =
      some (Json.num (cfg.limit.getD 50)) := by
  simp [crawlRequestBody, lookupKey_cons_ne, lookupKey_cons_eq, lookupKey_addOpt_ne,
    lookupKey_addOpt2_ne, lookupKey]

theorem crawl_lookup_select_paths (cfg : TavilyCrawlOptions) (inp : CrawlInput) :
    lookupKey "select_paths" (crawlRequestBody cfg inp) =
      (filledList cfg.selectPaths).map Json.strList := by
  cases h : filledList cfg.selectPaths <;>
    simp [crawlRequestBody, lookupKey_cons_ne, lookupKey_cons_eq, lookupKey_addOpt_ne,
      lookupKey_addOpt_eq, lookupKey_addOpt2_ne, lookupKey, Option.orElse, h]

theorem crawl_lookup_select_domains (cfg : TavilyCrawlOptions) (inp : CrawlInput) :
    lookupKey "select_domains" (crawlRequestBody cfg inp) =
      (filledList cfg.selectDomains).map Json.strList := by
  cases h : filledList cfg.selectDomains <;>
    simp [crawlRequestBody, lookupKey_cons_ne, lookupKey_cons_eq, lookupKey_addOpt_ne,
      lookupKey_addOpt_eq, lookupKey_addOpt2_ne, lookupKey, Option.orElse, h]

theorem crawl_lookup_exclude_paths (cfg : TavilyCrawlOptions) (inp : CrawlInput) :
    lookupKey "exclude_paths" (crawlRequestBody cfg inp) =
      (filledList cfg.excludePaths).map Json.strList := by
  cases h : filledList cfg.excludePaths <;>
    simp [crawlRequestBody, lookupKey_cons_ne, lookupKey_cons_eq, lookupKey_addOpt_ne,
      lookupKey_addOpt_eq, lookupKey_addOpt2_ne, lookupKey, Option.orElse, h]

theorem crawl_lookup_exclude_domains (cfg : TavilyCrawlOptions) (inp : CrawlInput) :
    lookupKey "exclude_domains" (crawlRequestBody cfg inp) =
      (filledList cfg.excludeDomains).map Json.strList := by
  cases h : filledList cfg.excludeDomains <;>
    simp [crawlRequestBody, lookupKey_cons_ne, lookupKey_cons_eq, lookupKey_addOpt_ne,
      lookupKey_addOpt_eq, lookupKey_addOpt2_ne, lookupKey, Option.orElse, h]

theorem crawl_lookup_include_favicon (cfg : TavilyCrawlOptions) (inp : CrawlInput) :
    lookupKey "include_favicon" (crawlRequestBody cfg inp) =
      cfg.includeFavicon.map Json.bool := by
  cases h : cfg.includeFavicon <;>
    simp [crawlRequestBody, lookupKey_cons_ne, lookupKey_cons_eq, lookupKey_addOpt_ne,
      lookupKey_addOpt_eq, lookupKey_addOpt2_ne, lookupKey, Option.orElse, h]

theorem crawl_lookup_timeout (cfg : TavilyCrawlOptions) (inp : CrawlInput) :
    lookupKey "timeout" (crawlRequestBody cfg inp) =
      some (Json.num (cfg.timeout.getD 150)) := by
  simp [crawlRequestBody, lookupKey_cons_ne, lookupKey_cons_eq, lookupKey_addOpt_ne,
    lookupKey_addOpt2_ne, lookupKey]

/-- C5: a field no layer ever set never appears as a key in the payload, and a
filter-list field supplied as an empty list behaves identically to an absent
field — the key is omitted, not emitted as null or `[]` (shown for search and
map; an empty per-call `excludeDomains` still falls through to a non-empty
configuration list, exactly as the claim allows). -/
theorem payload_omits_unset_and_empty (cfg : TavilySearchOptions) (inp : SearchInput)
    (mCfg : TavilyMapOptions) (mInp : MapInput) :
    (inp.includeDomains = none → cfg.includeDomains = none →
      lookupKey "include_domains" (searchRequestBody cfg inp) = none) ∧
    (inp.excludeDomains = none → cfg.excludeDomains = none →
      lookupKey "exclude_domains" (searchRequestBody cfg inp) = none) ∧
    (inp.timeRange = none → cfg.timeRange = none →
      lookupKey "time_range" (searchRequestBody cfg inp) = none) ∧
    (inp.startDate = none → cfg.startDate = none →
      lookupKey "start_date" (searchRequestBody cfg inp) = none) ∧
    (inp.endDate = none → cfg.endDate = none →
      lookupKey "end_date" (searchRequestBody cfg inp) = none) ∧
    (inp.includeFavicon = none → cfg.includeFavicon = none →
      lookupKey "include_favicon" (searchRequestBody cfg inp) = none) ∧
    (cfg.days = none → lookupKey "days" (searchRequestBody cfg inp) = none) ∧
    (cfg.includeImageDescriptions = none →
      lookupKey "include_image_descriptions" (searchRequestBody cfg inp) = none) ∧
    (cfg.includeRawContent = none →
      lookupKey "include_raw_content" (searchRequestBody cfg inp) = none) ∧
    (cfg.country = none → lookupKey "country" (searchRequestBody cfg inp) = none) ∧
    (cfg.chunksPerSource = none →
      lookupKey "chunks_per_source" (searchRequestBody cfg inp) = none) ∧
    (cfg.autoParameters = none →
      lookupKey "auto_parameters" (searchRequestBody cfg inp) = none) ∧
    (cfg.maxTokens = none → lookupKey "max_tokens" (searchRequestBody cfg inp) = none) ∧
    searchRequestBody cfg { inp with includeDomains := some [] } =
      searchRequestBody cfg { inp with includeDomains := none } ∧
    searchRequestBody cfg { inp with excludeDomains := some [] } =
      searchRequestBody cfg { inp with excludeDomains := none } ∧
    searchRequestBody { cfg with includeDomains := some [] } inp =
      searchRequestBody { cfg with includeDomains := none } inp ∧
    searchRequestBody { cfg with excludeDomains := some [] } inp =
      searchRequestBody { cfg with excludeDomains := none } inp ∧
    (mCfg.selectPaths = none →
      lookupKey "select_paths" (mapRequestBody mCfg mInp) = none) ∧
    (mCfg.selectDomains = none →
      lookupKey "select_domains" (mapRequestBody mCfg mInp) = none) ∧
    (mCfg.excludePaths = none →
      lookupKey "exclude_paths" (mapRequestBody mCfg mInp) = none) ∧
    (mCfg.excludeDomains = none →
      lookupKey "exclude_domains" (mapRequestBody mCfg mInp) = none) ∧
    (mInp.instructions = none → mCfg.instructions = none →
      lookupKey "instructions" (mapRequestBody mCfg mInp) = none) ∧
    (mInp.allowExternal = none → mCfg.allowExternal = none →
      lookupKey "allow_external" (mapRequestBody mCfg mInp) = none) ∧
    mapRequestBody { mCfg with selectPaths := some [] } mInp =
      mapRequestBody { mCfg with selectPaths := none } mInp ∧
    mapRequestBody { mCfg with excludeDomains := some [] } mInp =
      mapRequestBody { mCfg with excludeDomains := none } mInp := by
  refine ⟨fun h1 h2 => ?_, fun h1 h2 => ?_, fun h1 h2 => ?_, fun h1 h2 => ?_,
    fun h1 h2 => ?_, fun h1 h2 => ?_, fun h => ?_, fun h => ?_, fun h => ?_,
    fun h => ?_, fun h => ?_, fun h => ?_, fun h => ?_, rfl, rfl, rfl, rfl,
    fun h => ?_, fun h => ?_, fun h => ?_, fun h => ?_, fun h1 h2 => ?_,
    fun h1 h2 => ?_, rfl, rfl⟩
  · simp [searchRequestBody, lookupKey_cons_ne, lookupKey_cons_eq, lookupKey_addOpt_ne,
      lookupKey_addOpt_eq, lookupKey_addOpt2_ne, lookupKey_addOpt2_eq, lookupKey,
      Option.orElse, filledList_none, h1, h2]
  · simp [searchRequestBody, lookupKey_cons_ne, lookupKey_cons_eq, lookupKey_addOpt_ne,
      lookupKey_addOpt_eq, lookupKey_addOpt2_ne, lookupKey_addOpt2_eq, lookupKey,
      Option.orElse, filledList_none, h1, h2]
  · simp [searchRequestBody, lookupKey_cons_ne, lookupKey_cons_eq, lookupKey_addOpt_ne,
      lookupKey_addOpt_eq, lookupKey_addOpt2_ne, lookupKey_addOpt2_eq, lookupKey,
      Option.orElse, h1, h2]
  · simp [searchRequestBody, lookupKey_cons_ne, lookupKey_cons_eq, lookupKey_addOpt_ne,
      lookupKey_addOpt_eq, lookupKey_addOpt2_ne, lookupKey_addOpt2_eq, lookupKey,
      Option.orElse, truthyStr_none, h1, h2]
  · simp [searchRequestBody, lookupKey_cons_ne, lookupKey_cons_eq, lookupKey_addOpt_ne,
      lookupKey_addOpt_eq, lookupKey_addOpt2_ne, lookupKey_addOpt2_eq, lookupKey,
      Option.orElse, truthyStr_none, h1, h2]
  · simp [searchRequestBody, lookupKey_cons_ne, lookupKey_cons_eq, lookupKey_addOpt_ne,
      lookupKey_addOpt_eq, lookupKey_addOpt2_ne, lookupKey_addOpt2_eq, lookupKey,
      Option.orElse, h1, h2]
  · simp [searchRequestBody, lookupKey_cons_ne, lookupKey_cons_eq, lookupKey_addOpt_ne,
      lookupKey_addOpt_eq, lookupKey_addOpt2_ne, lookupKey_addOpt2_eq, lookupKey,
      Option.orElse, h]
  · simp [searchRequestBody, lookupKey_cons_ne, lookupKey_cons_eq, lookupKey_addOpt_ne,
      lookupKey_addOpt_eq, lookupKey_addOpt2_ne, lookupKey_addOpt2_eq, lookupKey,
      Option.orElse, h]
  · simp [searchRequestBody, lookupKey_cons_ne, lookupKey_cons_eq, lookupKey_addOpt_ne,
      lookupKey_addOpt_eq, lookupKey_addOpt2_ne, lookupKey_addOpt2_eq, lookupKey,
      Option.orElse, truthyRaw, h]
  · simp [searchRequestBody, lookupKey_cons_ne, lookupKey_cons_eq, lookupKey_addOpt_ne,
      lookupKey_addOpt_eq, lookupKey_addOpt2_ne, lookupKey_addOpt2_eq, lookupKey,
      Option.orElse, truthyStr_none, h]
  · simp [searchRequestBody, lookupKey_cons_ne, lookupKey_cons_eq, lookupKey_addOpt_ne,
      lookupKey_addOpt_eq, lookupKey_addOpt2_ne, lookupKey_addOpt2_eq, lookupKey,
      Option.orElse, h]
  · simp [searchRequestBody, lookupKey_cons_ne, lookupKey_cons_eq, lookupKey_addOpt_ne,
      lookupKey_addOpt_eq, lookupKey_addOpt2_ne, lookupKey_addOpt2_eq, lookupKey,
      Option.orElse, h]
  · simp [searchRequestBody, lookupKey_cons_ne, lookupKey_cons_eq, lookupKey_addOpt_ne,
      lookupKey_addOpt_eq, lookupKey_addOpt2_ne, lookupKey_addOpt2_eq, lookupKey,
      Option.orElse, h]
  · simp [mapRequestBody, lookupKey_cons_ne, lookupKey_cons_eq, lookupKey_addOpt_ne,
      lookupKey_addOpt_eq, lookupKey_addOpt2_ne, lookupKey_addOpt2_eq, lookupKey,
      Option.orElse, filledList_none, h]
  · simp [mapRequestBody, lookupKey_cons_ne, lookupKey_cons_eq, lookupKey_addOpt_ne,
      lookupKey_addOpt_eq, lookupKey_addOpt2_ne, lookupKey_addOpt2_eq, lookupKey,
      Option.orElse, filledList_none, h]
  · simp [mapRequestBody, lookupKey_cons_ne, lookupKey_cons_eq, lookupKey_addOpt_ne,
      lookupKey_addOpt_eq, lookupKey_addOpt2_ne, lookupKey_addOpt2_eq, lookupKey,
      Option.orElse, filledList_none, h]
  · simp [mapRequestBody, lookupKey_cons_ne, lookupKey_cons_eq, lookupKey_addOpt_ne,
      lookupKey_addOpt_eq, lookupKey_addOpt2_ne, lookupKey_addOpt2_eq, lookupKey,
      Option.orElse, filledList_none, h]
  · simp [mapRequestBody, lookupKey_cons_ne, lookupKey_cons_eq, lookupKey_addOpt_ne,
      lookupKey_addOpt_eq, lookupKey_addOpt2_ne, lookupKey_addOpt2_eq, lookupKey,
      Option.orElse, truthyStr_none, h1, h2]
  · simp [mapRequestBody, lookupKey_cons_ne, lookupKey_cons_eq, lookupKey_addOpt_ne,
      lookupKey_addOpt_eq, lookupKey_addOpt2_ne, lookupKey_addOpt2_eq, lookupKey,
      Option.orElse, h1, h2]

/-- C5 witness: the omission statement applied at the empty configuration and
a bare call input. -/
theorem payload_omits_unset_and_empty_witness :
    lookupKey "include_domains" (searchRequestBody {} { query := "q" }) = none ∧
    lookupKey "time_range" (searchRequestBody {} { query := "q" }) = none ∧
    lookupKey "country" (searchRequestBody {} { query := "q" }) = none ∧
    searchRequestBody {} { query := "q", excludeDomains := some [] } =
      searchRequestBody {} { query := "q", excludeDomains := none } ∧
    lookupKey "select_paths" (mapRequestBody {} { url := "u" }) = none ∧
    mapRequestBody { selectPaths := some [] } { url := "u" } =
      mapRequestBody { selectPaths := none } { url := "u" } := by
  have h := payload_omits_unset_and_empty {} { query := "q" } {} { url := "u" }
  exact ⟨h.1 rfl rfl, h.2.2.1 rfl rfl, h.2.2.2.2.2.2.2.2.2.1 rfl,
    h.2.2.2.2.2.2.2.2.2.2.2.2.2.2.1,
    h.2.2.2.2.2.2.2.2.2.2.2.2.2.2.2.2.2.1 rfl,
    h.2.2.2.2.2.2.2.2.2.2.2.2.2.2.2.2.2.2.2.2.2.2.2.1⟩

/-- C6: a crawl or map call whose `maxDepth` lies outside the inclusive range
1..5 is rejected by schema validation before the tool body executes: the
invocation returns nothing, no request body is built and no payload is
produced. -/
theorem maxDepth_bounds_reject :
    (∀ (cfg : TavilyCrawlOptions) (env : Option String) (i : CrawlInput)
        (world : FetchOutcome) (d : Nat), i.maxDepth = some d → d < 1 ∨ 5 < d →
        crawlInvoke cfg env i world = none) ∧
    (∀ (cfg : TavilyMapOptions) (env : Option String) (i : MapInput)
        (world : FetchOutcome) (d : Nat), i.maxDepth = some d → d < 1 ∨ 5 < d →
        mapInvoke cfg env i world = none) := by
  constructor
  · intro cfg env i world d hd hout
    have hv : validCrawlInput i = false := by
      simp [validCrawlInput, hd]
      omega
    simp [crawlInvoke, hv]
  · intro cfg env i world d hd hout
    have hv : validMapInput i = false := by
      simp [validMapInput, hd]
      omega
    simp [mapInvoke, hv]

/-- C6 witness: `maxDepth = 6` is rejected for both crawl and map. -/
theorem maxDepth_bounds_reject_witness :
    crawlInvoke {} none { url := "u", maxDepth := some 6 } (.fail "m") = none ∧
    mapInvoke {} none { url := "u", maxDepth := some 6 } (.fail "m") = none := by
  exact ⟨maxDepth_bounds_reject.1 {} none { url := "u", maxDepth := some 6 }
      (.fail "m") 6 rfl (Or.inr (by decide)),
    maxDepth_bounds_reject.2 {} none { url := "u", maxDepth := some 6 }
      (.fail "m") 6 rfl (Or.inr (by decide))⟩

/-- C7: the crawl fields not exposed in the per-call schema are unreachable by
the agent — for a fixed configuration, any two valid call inputs produce
payloads with identical values (or identical absence) for `max_breadth`,
`limit`, `select_paths`, `select_domains`, `exclude_paths`,
`exclude_domains`, `include_favicon` and `timeout`. -/
theorem crawl_dev_fields_agent_independent (cfg : TavilyCrawlOptions)
    (i1 i2 : CrawlInput) (h1 : validCrawlInput i1 = true)
    (h2 : validCrawlInput i2 = true) :
    lookupKey "max_breadth" (crawlRequestBody cfg i1) =
      lookupKey "max_breadth" (crawlRequestBody cfg i2) ∧
    lookupKey "limit" (crawlRequestBody cfg i1) =
      lookupKey "limit" (crawlRequestBody cfg i2) ∧
    lookupKey "select_paths" (crawlRequestBody cfg i1) =
      lookupKey "select_paths" (crawlRequestBody cfg i2) ∧
    lookupKey "select_domains" (crawlRequestBody cfg i1) =
      lookupKey "select_domains" (crawlRequestBody cfg i2) ∧
    lookupKey "exclude_paths" (crawlRequestBody cfg i1) =
      lookupKey "exclude_paths" (crawlRequestBody cfg i2) ∧
    lookupKey "exclude_domains" (crawlRequestBody cfg i1) =
      lookupKey "exclude_domains" (crawlRequestBody cfg i2) ∧
    lookupKey "include_favicon" (crawlRequestBody cfg i1) =
      lookupKey "include_favicon" (crawlRequestBody cfg i2) ∧
    lookupKey "timeout" (crawlRequestBody cfg i1) =
      lookupKey "timeout" (crawlRequestBody cfg i2) := by
  refine ⟨?_, ?_, ?_, ?_, ?_, ?_, ?_, ?_⟩ <;>
    simp [crawl_lookup_max_breadth, crawl_lookup_limit, crawl_lookup_select_paths,
      crawl_lookup_select_domains, crawl_lookup_exclude_paths,
      crawl_lookup_exclude_domains, crawl_lookup_include_favicon, crawl_lookup_timeout]

/-- C7 witness: a restrictive configuration and two very different valid call
inputs produce identical developer-only payload entries. -/
theorem crawl_dev_fields_agent_independent_witness :
    lookupKey "select_paths"
        (crawlRequestBody { selectPaths := some ["/blog"], timeout := some 10 }
          { url := "u", maxDepth := some 2, instructions := some "only blogs",
            allowExternal := some true }) =
      lookupKey "select_paths"
        (crawlRequestBody { selectPaths := some ["/blog"], timeout := some 10 }
          { url := "v", extractDepth := some .advanced }) ∧
    lookupKey "timeout"
        (crawlRequestBody { selectPaths := some ["/blog"], timeout := some 10 }
          { url := "u", maxDepth := some 2, instructions := some "only blogs",
            allowExternal := some true }) =
      lookupKey "timeout"
        (crawlRequestBody { selectPaths := some ["/blog"], timeout := some 10 }
          { url := "v", extractDepth := some .advanced }) := by
  have h := crawl_dev_fields_agent_independent
    { selectPaths := some ["/blog"], timeout := some 10 }
    { url := "u", maxDepth := some 2, instructions := some "only blogs",
      allowExternal := some true }
    { url := "v", extractDepth := some .advanced } rfl rfl
  exact ⟨h.2.2.1, h.2.2.2.2.2.2.2⟩

/-- C3: with no truthy explicit credential and no truthy environment
credential, every tool invocation fails before any HTTP request is issued
(`requestSent = none`), with the fixed message naming the missing credential
and the two ways to supply it; and a truthy explicit credential is always
preferred over the environment one. -/
theorem missing_api_key_fails_before_http :
    (∀ (cfg : TavilySearchOptions) (env : Option String) (inp : SearchInput)
        (world : FetchOutcome), truthyStr cfg.apiKey = none → truthyStr env = none →
      searchExecute cfg env inp world =
        ⟨none, Except.error apiKeyErrorMsg⟩) ∧
    (∀ (cfg : TavilyCrawlOptions) (env : Option String) (inp : CrawlInput)
        (world : FetchOutcome), truthyStr cfg.apiKey = none → truthyStr env = none →
      crawlExecute cfg env inp world =
        ⟨none, Except.error apiKeyErrorMsg⟩) ∧
    (∀ (cfg : TavilyMapOptions) (env : Option String) (inp : MapInput)
        (world : FetchOutcome), truthyStr cfg.apiKey = none → truthyStr env = none →
      mapExecute cfg env inp world =
        ⟨none, Except.error apiKeyErrorMsg⟩) ∧
    (∀ (cfg : TavilyExtractOptions) (env : Option String) (inp : ExtractInput)
        (world : FetchOutcome), truthyStr cfg.apiKey = none → truthyStr env = none →
      extractExecute cfg env inp world =
        ⟨none, Except.error apiKeyErrorMsg⟩) ∧
    (∃ p q2, apiKeyErrorMsg = p ++ "Tavily API key" ++ q2) ∧
    (∃ p q2, apiKeyErrorMsg = p ++ "Set it via options" ++ q2) ∧
    (∃ p q2, apiKeyErrorMsg = p ++ "TAVILY_API_KEY environment variable" ++ q2) ∧
    (∀ (apiKey env : Option String) (k : String), truthyStr apiKey = some k →
      resolveApiKey apiKey env = apiKey) := by
  refine ⟨?_, ?_, ?_, ?_, ?_, ?_, ?_, ?_⟩
  · intro cfg env inp world h1 h2
    simp [searchExecute, runTool, resolveApiKey, h1, h2]
  · intro cfg env inp world h1 h2
    simp [crawlExecute, runTool, resolveApiKey, h1, h2]
  · intro cfg env inp world h1 h2
    simp [mapExecute, runTool, resolveApiKey, h1, h2]
  · intro cfg env inp world h1 h2
    simp [extractExecute, runTool, resolveApiKey, h1, h2]
  · exact ⟨"", " is required. Set it via options or TAVILY_API_KEY environment variable.",
      rfl⟩
  · exact ⟨"Tavily API key is required. ",
      " or TAVILY_API_KEY environment variable.", rfl⟩
  · exact ⟨"Tavily API key is required. Set it via options or ", ".", rfl⟩
  · intro apiKey env k h
    cases apiKey with
    | none => simp [truthyStr] at h
    | some s =>
      by_cases he : s.isEmpty
      · simp [truthyStr_some, he] at h
      · simp [truthyStr_some, he] at h
        subst h
        simp [resolveApiKey, truthyStr_some, he]

/-- C3 witness: both credential sources absent — each tool fails with the
fixed message and no request is sent; and the explicit credential wins over
an environment credential. -/
theorem missing_api_key_fails_before_http_witness :
    searchExecute {} none { query := "q" } (.fail "m") =
      ⟨none, Except.error apiKeyErrorMsg⟩ ∧
    crawlExecute {} (some "") { url := "u" } (.fail "m") =
      ⟨none, Except.error apiKeyErrorMsg⟩ ∧
    mapExecute { apiKey := some "" } none { url := "u" } (.fail "m") =
      ⟨none, Except.error apiKeyErrorMsg⟩ ∧
    extractExecute {} none { urls := ["u"] } (.fail "m") =
      ⟨none, Except.error apiKeyErrorMsg⟩ ∧
    resolveApiKey (some "explicit-key") (some "env-key") = some "explicit-key" := by
  exact ⟨missing_api_key_fails_before_http.1 {} none { query := "q" } (.fail "m") rfl rfl,
    missing_api_key_fails_before_http.2.1 {} (some "") { url := "u" } (.fail "m") rfl rfl,
    missing_api_key_fails_before_http.2.2.1 { apiKey := some "" } none { url := "u" }
      (.fail "m") rfl rfl,
    missing_api_key_fails_before_http.2.2.2.1 {} none { urls := ["u"] } (.fail "m") rfl rfl,
    missing_api_key_fails_before_http.2.2.2.2.2.2.2 (some "explicit-key") (some "env-key")
      "explicit-key" rfl⟩

/-- C4: every non-2xx HTTP response makes the invocation fail — never succeed —
with a message containing the numeric status and the JSON-serialized parsed
error detail; an unparseable error body degrades to the empty detail object
`\x7b\x7d` without throwing, and the message still contains the status
(shown for search and crawl). -/
theorem non_ok_response_is_failure :
    (∀ (cfg : TavilySearchOptions) (env : Option String) (inp : SearchInput)
        (r : HttpResponse) (k : String),
      truthyStr (resolveApiKey cfg.apiKey env) = some k → r.ok = false →
      (searchExecute cfg env inp (.resp r)).result =
          Except.error ("Failed to search with Tavily: " ++ apiErrorMessage r) ∧
        (∃ p q2, "Failed to search with Tavily: " ++ apiErrorMessage r =
          p ++ toString r.status ++ q2) ∧
        (∃ p q2, "Failed to search with Tavily: " ++ apiErrorMessage r =
          p ++ (errorDataOf r).stringify ++ q2)) ∧
    (∀ (cfg : TavilyCrawlOptions) (env : Option String) (inp : CrawlInput)
        (r : HttpResponse) (k : String),
      truthyStr (resolveApiKey cfg.apiKey env) = some k → r.ok = false →
      (crawlExecute cfg env inp (.resp r)).result =
          Except.error ("Failed to crawl with Tavily: " ++ apiErrorMessage r) ∧
        (∃ p q2, "Failed to crawl with Tavily: " ++ apiErrorMessage r =
          p ++ toString r.status ++ q2)) ∧
    (∀ (r : HttpResponse) (pm : String), r.body = Except.error pm →
      errorDataOf r = Json.obj []) := by
  refine ⟨?_, ?_, ?_⟩
  · intro cfg env inp r k hk hok
    refine ⟨?_, ?_, ?_⟩
    · simp [searchExecute, runTool, fetchAndNormalize, hk, hok]
    · exact ⟨"Failed to search with Tavily: " ++ "Tavily API error: ",
        " " ++ r.statusText ++ ". " ++ (errorDataOf r).stringify,
        by simp [apiErrorMessage, String.append_assoc]; rfl⟩
    · exact ⟨"Failed to search with Tavily: " ++ ("Tavily API error: " ++
          toString r.status ++ " " ++ r.statusText ++ ". "), "",
        by simp [apiErrorMessage, String.append_assoc]⟩
  · intro cfg env inp r k hk hok
    refine ⟨?_, ?_⟩
    · simp [crawlExecute, runTool, fetchAndNormalize, hk, hok]
    · exact ⟨"Failed to crawl with Tavily: " ++ "Tavily API error: ",
        " " ++ r.statusText ++ ". " ++ (errorDataOf r).stringify,
        by simp [apiErrorMessage, String.append_assoc]; rfl⟩
  · intro r pm h
    simp [errorDataOf, h]

/-- C4 witness: a 429 with JSON body `\x7b"error": "rate limited"\x7d` fails
with the status in the message, and a 500 with an unparseable body degrades
to the empty detail object and still fails with the status. -/
theorem non_ok_response_is_failure_witness :
    (searchExecute { apiKey := some "k" } none { query := "q" }
        (.resp ⟨429, "Too Many Requests",
          Except.ok (Json.obj [("error", Json.str "rate limited")])⟩)).result =
      Except.error ("Failed to search with Tavily: " ++
        apiErrorMessage ⟨429, "Too Many Requests",
          Except.ok (Json.obj [("error", Json.str "rate limited")])⟩) ∧
    (∃ p q2, "Failed to search with Tavily: " ++
        apiErrorMessage ⟨429, "Too Many Requests",
          Except.ok (Json.obj [("error", Json.str "rate limited")])⟩ =
      p ++ toString (429 : Nat) ++ q2) ∧
    errorDataOf ⟨500, "Internal Server Error", Except.error "Unexpected token"⟩ =
      Json.obj [] ∧
    (crawlExecute { apiKey := some "k" } none { url := "u" }
        (.resp ⟨500, "Internal Server Error",
          Except.error "Unexpected token"⟩)).result =
      Except.error ("Failed to crawl with Tavily: " ++
        apiErrorMessage ⟨500, "Internal Server Error",
          Except.error "Unexpected token"⟩) := by
  have h1 := non_ok_response_is_failure.1 { apiKey := some "k" } none { query := "q" }
    ⟨429, "Too Many Requests", Except.ok (Json.obj [("error", Json.str "rate limited")])⟩
    "k" rfl rfl
  have h2 := non_ok_response_is_failure.2.1 { apiKey := some "k" } none { url := "u" }
    ⟨500, "Internal Server Error", Except.error "Unexpected token"⟩ "k" rfl rfl
  have h3 := non_ok_response_is_failure.2.2
    ⟨500, "Internal Server Error", Except.error "Unexpected token"⟩ "Unexpected token" rfl
  exact ⟨h1.1, h1.2.1, h3, h2.1⟩

/-- C8: a 2xx response whose body parses as JSON is returned to the caller
unchanged by every tool — the tool's return value is exactly the parsed
body. -/
theorem ok_json_body_returned_verbatim :
    (∀ (cfg : TavilySearchOptions) (env : Option String) (inp : SearchInput)
        (r : HttpResponse) (j : Json) (k : String),
      truthyStr (resolveApiKey cfg.apiKey env) = some k → r.ok = true →
      r.body = Except.ok j →
      (searchExecute cfg env inp (.resp r)).result = Except.ok j) ∧
    (∀ (cfg : TavilyCrawlOptions) (env : Option String) (inp : CrawlInput)
        (r : HttpResponse) (j : Json) (k : String),
      truthyStr (resolveApiKey cfg.apiKey env) = some k → r.ok = true →
      r.body = Except.ok j →
      (crawlExecute cfg env inp (.resp r)).result = Except.ok j) ∧
    (∀ (cfg : TavilyMapOptions) (env : Option String) (inp : MapInput)
        (r : HttpResponse) (j : Json) (k : String),
      truthyStr (resolveApiKey cfg.apiKey env) = some k → r.ok = true →
      r.body = Except.ok j →
      (mapExecute cfg env inp (.resp r)).result = Except.ok j) ∧
    (∀ (cfg : TavilyExtractOptions) (env : Option String) (inp : ExtractInput)
        (r : HttpResponse) (j : Json) (k : String),
      truthyStr (resolveApiKey cfg.apiKey env) = some k → r.ok = true →
      r.body = Except.ok j →
      (extractExecute cfg env inp (.resp r)).result = Except.ok j) := by
  refine ⟨?_, ?_, ?_, ?_⟩ <;> intro cfg env inp r j k hk hok hbody <;>
    simp [searchExecute, crawlExecute, mapExecute, extractExecute, runTool,
      fetchAndNormalize, hk, hok, hbody]

/-- C8 witness: a mocked 200 response with body `\x7b"results": []\x7d` is
returned verbatim by search, crawl, map and extract. -/
theorem ok_json_body_returned_verbatim_witness :
    (searchExecute { apiKey := some "k" } none { query := "q" }
        (.resp ⟨200, "OK", Except.ok (Json.obj [("results", Json.arr [])])⟩)).result =
      Except.ok (Json.obj [("results", Json.arr [])]) ∧
    (crawlExecute { apiKey := some "k" } none { url := "u" }
        (.resp ⟨200, "OK", Except.ok (Json.obj [("results", Json.arr [])])⟩)).result =
      Except.ok (Json.obj [("results", Json.arr [])]) ∧
    (mapExecute { apiKey := some "k" } none { url := "u" }
        (.resp ⟨200, "OK", Except.ok (Json.obj [("results", Json.arr [])])⟩)).result =
      Except.ok (Json.obj [("results", Json.arr [])]) ∧
    (extractExecute { apiKey := some "k" } none { urls := ["u"] }
        (.resp ⟨200, "OK", Except.ok (Json.obj [("results", Json.arr [])])⟩)).result =
      Except.ok (Json.obj [("results", Json.arr [])]) := by
  exact ⟨ok_json_body_returned_verbatim.1 { apiKey := some "k" } none { query := "q" }
      ⟨200, "OK", Except.ok (Json.obj [("results", Json.arr [])])⟩
      (Json.obj [("results", Json.arr [])]) "k" rfl rfl rfl,
    ok_json_body_returned_verbatim.2.1 { apiKey := some "k" } none { url := "u" }
      ⟨200, "OK", Except.ok (Json.obj [("results", Json.arr [])])⟩
      (Json.obj [("results", Json.arr [])]) "k" rfl rfl rfl,
    ok_json_body_returned_verbatim.2.2.1 { apiKey := some "k" } none { url := "u" }
      ⟨200, "OK", Except.ok (Json.obj [("results", Json.arr [])])⟩
      (Json.obj [("results", Json.arr [])]) "k" rfl rfl rfl,
    ok_json_body_returned_verbatim.2.2.2 { apiKey := some "k" } none { urls := ["u"] }
      ⟨200, "OK", Except.ok (Json.obj [("results", Json.arr [])])⟩
      (Json.obj [("results", Json.arr [])]) "k" rfl rfl rfl⟩

/-- C10: a 2xx response whose body fails to parse as JSON makes the
invocation fail — never succeed — with a message beginning with the tool's
action verb (`Failed to search with Tavily: ` / `Failed to crawl with
Tavily: `) followed by the parse error. -/
theorem ok_unparseable_body_fails :
    (∀ (cfg : TavilySearchOptions) (env : Option String) (inp : SearchInput)
        (r : HttpResponse) (k pm : String),
      truthyStr (resolveApiKey cfg.apiKey env) = some k → r.ok = true →
      r.body = Except.error pm →
      (searchExecute cfg env inp (.resp r)).result =
        Except.error ("Failed to search with Tavily: " ++ pm)) ∧
    (∀ (cfg : TavilyCrawlOptions) (env : Option String) (inp : CrawlInput)
        (r : HttpResponse) (k pm : String),
      truthyStr (resolveApiKey cfg.apiKey env) = some k → r.ok = true →
      r.body = Except.error pm →
      (crawlExecute cfg env inp (.resp r)).result =
        Except.error ("Failed to crawl with Tavily: " ++ pm)) := by
  refine ⟨?_, ?_⟩ <;> intro cfg env inp r k pm hk hok hbody <;>
    simp [searchExecute, crawlExecute, runTool, fetchAndNormalize, hk, hok, hbody]

/-- C10 witness: a 200 response with a non-JSON body fails for search and
crawl, with the verb-prefixed message. -/
theorem ok_unparseable_body_fails_witness :
    (searchExecute { apiKey := some "k" } none { query := "q" }
        (.resp ⟨200, "OK", Except.error "Unexpected end of JSON input"⟩)).result =
      Except.error ("Failed to search with Tavily: " ++ "Unexpected end of JSON input") ∧
    (crawlExecute { apiKey := some "k" } none { url := "u" }
        (.resp ⟨200, "OK", Except.error "Unexpected end of JSON input"⟩)).result =
      Except.error ("Failed to crawl with Tavily: " ++ "Unexpected end of JSON input") := by
  exact ⟨ok_unparseable_body_fails.1 { apiKey := some "k" } none { query := "q" }
      ⟨200, "OK", Except.error "Unexpected end of JSON input"⟩ "k"
      "Unexpected end of JSON input" rfl rfl rfl,
    ok_unparseable_body_fails.2 { apiKey := some "k" } none { url := "u" }
      ⟨200, "OK", Except.error "Unexpected end of JSON input"⟩ "k"
      "Unexpected end of JSON input" rfl rfl rfl⟩

end Tavily
